import Mathlib

/-!
Shallow embedding of the gl-clock renderer (src/main.rs and src/rendering.rs).

Machine `f32` arithmetic is embedded as real arithmetic; GPU calls are
modelled as traces; the `HashMap` uniform cache is modelled as an
association list; a Rust panic is an `Except.error`.
-/

/-- Model of glam `Vec2` (f32 components as reals). -/
@[ext]
structure Vec2R where
  x : ℝ
  y : ℝ

/-- Model of glam `Vec3` / `Vec3A` (f32 components as reals). -/
@[ext]
structure Vec3R where
  x : ℝ
  y : ℝ
  z : ℝ

/-- Componentwise vector addition, modelling glam `Vec3A + Vec3A`. -/
def Vec3R.add (a b : Vec3R) : Vec3R :=
  ⟨a.x + b.x, a.y + b.y, a.z + b.z⟩

/-- Scalar multiplication `v * c`, modelling glam `Vec3A * f32`. -/
def Vec3R.scale (v : Vec3R) (c : ℝ) : Vec3R :=
  ⟨v.x * c, v.y * c, v.z * c⟩

/-- A 3x3 matrix of reals (the linear part of a glam `Affine3A`). -/
@[ext]
structure Mat3 where
  m00 : ℝ
  m01 : ℝ
  m02 : ℝ
  m10 : ℝ
  m11 : ℝ
  m12 : ℝ
  m20 : ℝ
  m21 : ℝ
  m22 : ℝ

/-- Row-column 3x3 matrix product. -/
def Mat3.mul (a b : Mat3) : Mat3 :=
  ⟨a.m00 * b.m00 + a.m01 * b.m10 + a.m02 * b.m20,
   a.m00 * b.m01 + a.m01 * b.m11 + a.m02 * b.m21,
   a.m00 * b.m02 + a.m01 * b.m12 + a.m02 * b.m22,
   a.m10 * b.m00 + a.m11 * b.m10 + a.m12 * b.m20,
   a.m10 * b.m01 + a.m11 * b.m11 + a.m12 * b.m21,
   a.m10 * b.m02 + a.m11 * b.m12 + a.m12 * b.m22,
   a.m20 * b.m00 + a.m21 * b.m10 + a.m22 * b.m20,
   a.m20 * b.m01 + a.m21 * b.m11 + a.m22 * b.m21,
   a.m20 * b.m02 + a.m21 * b.m12 + a.m22 * b.m22⟩

/-- Matrix-vector product for the 3x3 linear part. -/
def Mat3.mulVec (a : Mat3) (v : Vec3R) : Vec3R :=
  ⟨a.m00 * v.x + a.m01 * v.y + a.m02 * v.z,
   a.m10 * v.x + a.m11 * v.y + a.m12 * v.z,
   a.m20 * v.x + a.m21 * v.y + a.m22 * v.z⟩

/-- The 3x3 identity matrix. -/
def Mat3.identity : Mat3 :=
  ⟨1, 0, 0, 0, 1, 0, 0, 0, 1⟩

/-- A 4x4 matrix of reals, modelling glam `Mat4`. -/
@[ext]
structure Mat4 where
  m00 : ℝ
  m01 : ℝ
  m02 : ℝ
  m03 : ℝ
  m10 : ℝ
  m11 : ℝ
  m12 : ℝ
  m13 : ℝ
  m20 : ℝ
  m21 : ℝ
  m22 : ℝ
  m23 : ℝ
  m30 : ℝ
  m31 : ℝ
  m32 : ℝ
  m33 : ℝ

/-- Row-column 4x4 matrix product (glam `Mat4 * Mat4`: apply right factor first). -/
def Mat4.mul (a b : Mat4) : Mat4 :=
  ⟨a.m00 * b.m00 + a.m01 * b.m10 + a.m02 * b.m20 + a.m03 * b.m30,
   a.m00 * b.m01 + a.m01 * b.m11 + a.m02 * b.m21 + a.m03 * b.m31,
   a.m00 * b.m02 + a.m01 * b.m12 + a.m02 * b.m22 + a.m03 * b.m32,
   a.m00 * b.m03 + a.m01 * b.m13 + a.m02 * b.m23 + a.m03 * b.m33,
   a.m10 * b.m00 + a.m11 * b.m10 + a.m12 * b.m20 + a.m13 * b.m30,
   a.m10 * b.m01 + a.m11 * b.m11 + a.m12 * b.m21 + a.m13 * b.m31,
   a.m10 * b.m02 + a.m11 * b.m12 + a.m12 * b.m22 + a.m13 * b.m32,
   a.m10 * b.m03 + a.m11 * b.m13 + a.m12 * b.m23 + a.m13 * b.m33,
   a.m20 * b.m00 + a.m21 * b.m10 + a.m22 * b.m20 + a.m23 * b.m30,
   a.m20 * b.m01 + a.m21 * b.m11 + a.m22 * b.m21 + a.m23 * b.m31,
   a.m20 * b.m02 + a.m21 * b.m12 + a.m22 * b.m22 + a.m23 * b.m32,
   a.m20 * b.m03 + a.m21 * b.m13 + a.m22 * b.m23 + a.m23 * b.m33,
   a.m30 * b.m00 + a.m31 * b.m10 + a.m32 * b.m20 + a.m33 * b.m30,
   a.m30 * b.m01 + a.m31 * b.m11 + a.m32 * b.m21 + a.m33 * b.m31,
   a.m30 * b.m02 + a.m31 * b.m12 + a.m32 * b.m22 + a.m33 * b.m32,
   a.m30 * b.m03 + a.m31 * b.m13 + a.m32 * b.m23 + a.m33 * b.m33⟩

/-- The 4x4 identity matrix, modelling `Mat4::IDENTITY`. -/
def Mat4.identity : Mat4 :=
  ⟨1, 0, 0, 0, 0, 1, 0, 0, 0, 0, 1, 0, 0, 0, 0, 1⟩

/-- Model of glam `Affine3A`: a 3x3 linear part plus a translation vector. -/
@[ext]
structure Affine3 where
  linear : Mat3
  translation : Vec3R

/-- Affine composition, modelling glam `Affine3A * Affine3A`
(the right-hand transform is applied first). -/
def Affine3.mul (a b : Affine3) : Affine3 :=
  ⟨a.linear.mul b.linear, (a.linear.mulVec b.translation).add a.translation⟩

/-- Model of `Affine3A::from_rotation_z`. -/
noncomputable def Affine3.fromRotationZ (θ : ℝ) : Affine3 :=
  ⟨⟨Real.cos θ, -Real.sin θ, 0,
    Real.sin θ, Real.cos θ, 0,
    0, 0, 1⟩, ⟨0, 0, 0⟩⟩

/-- Model of `Affine3A::from_translation`. -/
def Affine3.fromTranslation (t : Vec3R) : Affine3 :=
  ⟨Mat3.identity, t⟩

/-- Model of `Affine3A::from_scale`. -/
def Affine3.fromScale (s : Vec3R) : Affine3 :=
  ⟨⟨s.x, 0, 0, 0, s.y, 0, 0, 0, s.z⟩, ⟨0, 0, 0⟩⟩

/-- Model of `Mat4::from(Affine3A)`: homogeneous 4x4 with the translation in
the last column. -/
def mat4OfAffine (a : Affine3) : Mat4 :=
  ⟨a.linear.m00, a.linear.m01, a.linear.m02, a.translation.x,
   a.linear.m10, a.linear.m11, a.linear.m12, a.translation.y,
   a.linear.m20, a.linear.m21, a.linear.m22, a.translation.z,
   0, 0, 0, 1⟩

/-- The homogeneous rotation-about-Z matrix `RotateZ(θ)` named by the spec. -/
noncomputable def rotateZ4 (θ : ℝ) : Mat4 :=
  ⟨Real.cos θ, -Real.sin θ, 0, 0,
   Real.sin θ, Real.cos θ, 0, 0,
   0, 0, 1, 0,
   0, 0, 0, 1⟩

/-- The homogeneous translation matrix `Translate(x, y, z)` named by the spec. -/
def translate4 (x y z : ℝ) : Mat4 :=
  ⟨1, 0, 0, x,
   0, 1, 0, y,
   0, 0, 1, z,
   0, 0, 0, 1⟩

/-- The homogeneous scale matrix `Scale(x, y, z)` named by the spec. -/
def scale4 (x y z : ℝ) : Mat4 :=
  ⟨x, 0, 0, 0,
   0, y, 0, 0,
   0, 0, z, 0,
   0, 0, 0, 1⟩

/-- Geometric state of `ClockHand` (src/main.rs): the shared mesh and shader
handles are modelled separately; all f32 state is real-valued. -/
structure ClockHand where
  color : Vec3R
  length : ℝ
  mount_point : Vec3R
  target_point : Vec3R
  origin : Vec3R
  rotation : ℝ
  transform : Mat4

/-- Model of `ClockHand::update_transform`. -/
noncomputable def ClockHand.update_transform (h : ClockHand) : ClockHand :=
  let scale : Vec3R := ⟨0.03, h.length, 1⟩
  let translation : Vec3R := ⟨0, h.length, h.origin.z⟩
  let transform :=
    ((Affine3.fromRotationZ h.rotation).mul
      (Affine3.fromTranslation translation)).mul
      (Affine3.fromScale scale)
  { h with transform := mat4OfAffine transform }

/-- Model of `ClockHand::set_rotation` (argument in degrees). -/
noncomputable def ClockHand.set_rotation (h : ClockHand) (rotation : ℝ) : ClockHand :=
  let radians := rotation * (Real.pi / 180)
  let rot := -radians
  let tp : Vec3R := ⟨Real.cos rot * h.length, Real.sin rot * h.length, h.target_point.z⟩
  let origin := (h.mount_point.add tp).scale 0.5
  ClockHand.update_transform
    { h with rotation := rot, target_point := tp, origin := origin }

/-- Model of `ClockHand::new` (mesh and shader handles omitted from the
geometric state). -/
noncomputable def ClockHand.new (length depth : ℝ) (color : Vec3R) : ClockHand :=
  let mount_point : Vec3R := ⟨0, 0, depth⟩
  let target_point : Vec3R := ⟨0, 1, depth⟩
  let origin := (mount_point.add target_point).scale 0.5
  ClockHand.update_transform
    { color := color, length := length, mount_point := mount_point,
      target_point := target_point, origin := origin, rotation := 0,
      transform := Mat4.identity }

/-- Model of `AnalogClock::get_seconds_rotation`. -/
noncomputable def AnalogClock.get_seconds_rotation (seconds milliseconds : ℝ) : ℝ :=
  seconds * 6 + milliseconds * 0.006

/-- Model of `AnalogClock::get_minutes_rotation`. -/
noncomputable def AnalogClock.get_minutes_rotation (minutes seconds milliseconds : ℝ) : ℝ :=
  minutes * 6 + seconds * 0.1 + milliseconds * 0.0001

/-- Model of `AnalogClock::get_hours_rotation`. -/
noncomputable def AnalogClock.get_hours_rotation (hours minutes seconds : ℝ) : ℝ :=
  hours * 30.0 + minutes * 0.5 + seconds * 0.008333

/-- Model of the `Vertex` record (f32 fields as reals). -/
structure VertexR where
  position : Vec3R
  texture_coordinate : Vec2R
  normal : Vec3R

/-- Host-side mesh data: the vertex and index lists kept by `Mesh`
(`u32` indices as naturals; GPU buffer handles omitted). -/
structure Mesh where
  vertices : List VertexR
  indices : List Nat

/-- Model of `Mesh::new`: keeps host-side copies of both arrays. -/
def Mesh.new (vertices : List VertexR) (indices : List Nat) : Mesh :=
  ⟨vertices, indices⟩

/-- Model of `Mesh::make_rect` (src/rendering.rs). -/
def Mesh.make_rect (width height : ℝ)
    (uv_tl uv_br : Option Vec2R) : Mesh :=
  let half_width := width * 0.5
  let half_height := height * 0.5
  let uv_top_left := uv_tl.getD ⟨0, 0⟩
  let uv_bottom_right := uv_br.getD ⟨1, 1⟩
  let uv_top_right : Vec2R := ⟨uv_bottom_right.x, uv_top_left.y⟩
  let uv_bottom_left : Vec2R := ⟨uv_top_left.x, uv_bottom_right.y⟩
  let normal : Vec3R := ⟨0, 0, 1⟩
  let vertices : List VertexR :=
    [⟨⟨half_width, half_height, 0⟩, uv_top_right, normal⟩,
     ⟨⟨half_width, -half_height, 0⟩, uv_bottom_right, normal⟩,
     ⟨⟨-half_width, -half_height, 0⟩, uv_bottom_left, normal⟩,
     ⟨⟨-half_width, half_height, 0⟩, uv_top_left, normal⟩]
  let indices : List Nat := [0, 1, 3, 1, 2, 3]
  Mesh.new vertices indices

/-- The constant `ClockFace::VERTICES` of src/main.rs. -/
def ClockFace.VERTICES : List VertexR :=
  [⟨⟨1, 1, 0⟩, ⟨1, 0⟩, ⟨0, 0, 0⟩⟩,
   ⟨⟨1, -1, 0⟩, ⟨1, 1⟩, ⟨0, 0, 0⟩⟩,
   ⟨⟨-1, -1, 0⟩, ⟨0, 1⟩, ⟨0, 0, 0⟩⟩,
   ⟨⟨-1, 1, 0⟩, ⟨0, 0⟩, ⟨0, 0, 0⟩⟩]

/-- The constant `ClockFace::INDICES` of src/main.rs. -/
def ClockFace.INDICES : List Nat := [0, 1, 3, 1, 2, 3]

/-- The constant `ClockHand::VERTICES` of src/main.rs. -/
def ClockHand.VERTICES : List VertexR :=
  [⟨⟨0, 1, 0⟩, ⟨0.5, 0⟩, ⟨0, 0, 0⟩⟩,
   ⟨⟨1, -1, 0⟩, ⟨1, 1⟩, ⟨0, 0, 0⟩⟩,
   ⟨⟨-1, -1, 0⟩, ⟨0, 1⟩, ⟨0, 0, 0⟩⟩]

/-- The constant `ClockHand::INDICES` of src/main.rs. -/
def ClockHand.INDICES : List Nat := [0, 1, 2]

/-- The clock-face mesh built by `ClockFace::new`. -/
def clockFaceMesh : Mesh := Mesh.new ClockFace.VERTICES ClockFace.INDICES

/-- The shared hand mesh built by `AnalogClock::new`. -/
def clockHandMesh : Mesh := Mesh.new ClockHand.VERTICES ClockHand.INDICES

/-- Index-buffer validity: every draw index references an existing vertex. -/
def Mesh.indicesValid (m : Mesh) : Prop :=
  ∀ i ∈ m.indices, i < m.vertices.length

/-- Whether the string contains a NUL byte: exactly when Rust
`CString::new` fails on it (and the `.expect` in
`get_uniform_location` panics). -/
def hasNul (s : String) : Bool :=
  s.data.any (fun c => c == Char.ofNat 0)

namespace Rendering

/-- Model of `ShaderProgram` in src/rendering.rs: diagnostic name plus the
lazily populated uniform-location cache (a `HashMap`, modelled as an
association list; GPU program id omitted). -/
structure ShaderProgram where
  name : String
  cache : List (String × Int)
deriving DecidableEq

/-- A GPU uniform-upload call issued by a setter (location and count only;
the uploaded bytes are not modelled). -/
inductive GLCall where
  | uniformMatrix4fv (location : Int) (count : Nat)
  | uniform3fv (location : Int)
  | uniform2fv (location : Int)
deriving DecidableEq

/-- Model of `ShaderProgram::get_uniform_location` (src/rendering.rs).
`tbl` is the linked program's uniform table as GL reports it
(`gl::GetUniformLocation`: negative means absent). An interior NUL byte in
the name makes `CString::new(..).expect(..)` panic, modelled as
`Except.error`; only found, non-negative locations are inserted into the
cache. -/
def ShaderProgram.getUniformLocation (tbl : String → Int) (p : ShaderProgram)
    (uniform : String) : Except String (Option Int × ShaderProgram) :=
  match p.cache.lookup uniform with
  | some location => Except.ok (some location, p)
  | none =>
    if hasNul uniform then
      Except.error "Should be able to turn uniform name into a CString"
    else
      let location := tbl uniform
      if location < 0 then
        Except.ok (none, p)
      else
        Except.ok (some location, { p with cache := (uniform, location) :: p.cache })

/-- Diagnostic emitted by `set_mat4` for a missing uniform. -/
def mat4Diag (uniform prog : String) : String :=
  "Mat4 shader uniform, \"" ++ uniform ++ "\", not found in \"" ++ prog ++ "\""

/-- Diagnostic emitted by `set_mat4_array` for a missing uniform. -/
def mat4ArrayDiag (uniform prog : String) : String :=
  "Mat4 shader uniform array, \"" ++ uniform ++ "\", not found in \"" ++ prog ++ "\""

/-- Diagnostic emitted by `set_vec3` for a missing uniform. -/
def vec3Diag (uniform prog : String) : String :=
  "Vec3 shader uniform, \"" ++ uniform ++ "\", not found in \"" ++ prog ++ "\""

/-- Diagnostic emitted by `set_vec2` for a missing uniform. -/
def vec2Diag (uniform prog : String) : String :=
  "Vec2 shader uniform, \"" ++ uniform ++ "\", not found in \"" ++ prog ++ "\""

/-- Model of `ShaderProgram::set_mat4` (src/rendering.rs): returns the
updated program, the GL calls issued, and the diagnostics printed. -/
def ShaderProgram.setMat4 (tbl : String → Int) (p : ShaderProgram)
    (uniform : String) (_value : Mat4) :
    Except String (ShaderProgram × List GLCall × List String) :=
  match p.getUniformLocation tbl uniform with
  | Except.error e => Except.error e
  | Except.ok (some location, p2) =>
    Except.ok (p2, [GLCall.uniformMatrix4fv location 1], [])
  | Except.ok (none, p2) => Except.ok (p2, [], [mat4Diag uniform p.name])

/-- Model of `ShaderProgram::set_mat4_array` (src/rendering.rs). -/
def ShaderProgram.setMat4Array (tbl : String → Int) (p : ShaderProgram)
    (uniform : String) (values : List Mat4) :
    Except String (ShaderProgram × List GLCall × List String) :=
  match p.getUniformLocation tbl uniform with
  | Except.error e => Except.error e
  | Except.ok (some location, p2) =>
    Except.ok (p2, [GLCall.uniformMatrix4fv location values.length], [])
  | Except.ok (none, p2) => Except.ok (p2, [], [mat4ArrayDiag uniform p.name])

/-- Model of `ShaderProgram::set_vec3` (src/rendering.rs). -/
def ShaderProgram.setVec3 (tbl : String → Int) (p : ShaderProgram)
    (uniform : String) (_value : Vec3R) :
    Except String (ShaderProgram × List GLCall × List String) :=
  match p.getUniformLocation tbl uniform with
  | Except.error e => Except.error e
  | Except.ok (some location, p2) => Except.ok (p2, [GLCall.uniform3fv location], [])
  | Except.ok (none, p2) => Except.ok (p2, [], [vec3Diag uniform p.name])

/-- Model of `ShaderProgram::set_vec2` (src/rendering.rs). -/
def ShaderProgram.setVec2 (tbl : String → Int) (p : ShaderProgram)
    (uniform : String) (_value : Vec2R) :
    Except String (ShaderProgram × List GLCall × List String) :=
  match p.getUniformLocation tbl uniform with
  | Except.error e => Except.error e
  | Except.ok (some location, p2) => Except.ok (p2, [GLCall.uniform2fv location], [])
  | Except.ok (none, p2) => Except.ok (p2, [], [vec2Diag uniform p.name])

end Rendering

/-- Model of `ShaderProgram` in src/main.rs (no diagnostic name field);
only the uniform-location cache is mutable state. -/
structure MShaderProgram where
  cache : List (String × Int)
deriving DecidableEq

/-- Model of `ShaderProgram::get_uniform_location` (src/main.rs); same
logic as the src/rendering.rs variant. -/
def MShaderProgram.getUniformLocation (tbl : String → Int) (p : MShaderProgram)
    (uniform : String) : Except String (Option Int × MShaderProgram) :=
  match p.cache.lookup uniform with
  | some location => Except.ok (some location, p)
  | none =>
    if hasNul uniform then
      Except.error "Should be able to turn uniform name into a CString"
    else
      let location := tbl uniform
      if location < 0 then
        Except.ok (none, p)
      else
        Except.ok (some location, { p with cache := (uniform, location) :: p.cache })

/-- Diagnostic of `set_mat4` in src/main.rs (no program name). -/
def mat4DiagM (uniform : String) : String :=
  "Mat4 shader uniform, \"" ++ uniform ++ "\", not found"

/-- Diagnostic of `set_vec3` in src/main.rs (no program name). -/
def vec3DiagM (uniform : String) : String :=
  "Vec3 shader uniform, \"" ++ uniform ++ "\", not found"

/-- Model of `ShaderProgram::set_mat4` (src/main.rs): returns the updated
program and the diagnostics printed. -/
def MShaderProgram.setMat4 (tbl : String → Int) (p : MShaderProgram)
    (uniform : String) (_value : Mat4) : Except String (MShaderProgram × List String) :=
  match p.getUniformLocation tbl uniform with
  | Except.error e => Except.error e
  | Except.ok (some _, p2) => Except.ok (p2, [])
  | Except.ok (none, p2) => Except.ok (p2, [mat4DiagM uniform])

/-- Model of `ShaderProgram::set_vec3` (src/main.rs). -/
def MShaderProgram.setVec3 (tbl : String → Int) (p : MShaderProgram)
    (uniform : String) (_value : Vec3R) : Except String (MShaderProgram × List String) :=
  match p.getUniformLocation tbl uniform with
  | Except.error e => Except.error e
  | Except.ok (some _, p2) => Except.ok (p2, [])
  | Except.ok (none, p2) => Except.ok (p2, [vec3DiagM uniform])

/-- Model of `ClockHand::draw` (src/main.rs): pushes the `transformation`
and `color` uniforms into the shared shader program and draws the shared
mesh (the mesh draw issues no state mutation). Returns the shader program
state after the borrow ends, with printed diagnostics. -/
def ClockHand.draw (tbl : String → Int) (h : ClockHand) (sp : MShaderProgram) :
    Except String (MShaderProgram × List String) :=
  match sp.setMat4 tbl "transformation" h.transform with
  | Except.error e => Except.error e
  | Except.ok (sp1, d1) =>
    match sp1.setVec3 tbl "color" h.color with
    | Except.error e => Except.error e
    | Except.ok (sp2, d2) => Except.ok (sp2, d1 ++ d2)

/-- Model of `AnalogClock` (src/main.rs): the face is represented by its
shader program (the only part of it with mutable state — its mesh and
texture are immutable after construction), plus the three hands and the
shared hand shader program. -/
structure AnalogClock where
  face_shader : MShaderProgram
  second_hand : ClockHand
  minute_hand : ClockHand
  hour_hand : ClockHand
  hand_shader : MShaderProgram

/-- The constant `AnalogClock::SECOND_HAND_COLOR`. -/
def AnalogClock.SECOND_HAND_COLOR : Vec3R := ⟨1, 0, 0⟩

/-- The constant `AnalogClock::MINUTE_HAND_COLOR`. -/
def AnalogClock.MINUTE_HAND_COLOR : Vec3R := ⟨0, 1, 0⟩

/-- The constant `AnalogClock::HOUR_HAND_COLOR`. -/
def AnalogClock.HOUR_HAND_COLOR : Vec3R := ⟨0, 0, 1⟩

/-- Model of `AnalogClock::new`: three hands with the source's lengths,
depths and colors; both shader programs start with empty caches. -/
noncomputable def AnalogClock.new : AnalogClock :=
  { face_shader := ⟨[]⟩,
    second_hand := ClockHand.new 0.48 (-0.1) AnalogClock.SECOND_HAND_COLOR,
    minute_hand := ClockHand.new 0.41 (-0.2) AnalogClock.MINUTE_HAND_COLOR,
    hour_hand := ClockHand.new 0.30 (-0.3) AnalogClock.HOUR_HAND_COLOR,
    hand_shader := ⟨[]⟩ }

/-- Model of `AnalogClock::update`: the wall-clock reading is passed in as
the hour, minute, second and nanosecond fields of the local time. -/
noncomputable def AnalogClock.update (c : AnalogClock)
    (hour minute second nanosecond : ℕ) : AnalogClock :=
  let hours : ℝ := (hour % 12 : ℕ)
  let minutes : ℝ := minute
  let seconds : ℝ := second
  let milliseconds : ℝ := (nanosecond : ℝ) / 1000000
  { c with
    second_hand :=
      c.second_hand.set_rotation (AnalogClock.get_seconds_rotation seconds milliseconds),
    minute_hand :=
      c.minute_hand.set_rotation
        (AnalogClock.get_minutes_rotation minutes seconds milliseconds),
    hour_hand :=
      c.hour_hand.set_rotation (AnalogClock.get_hours_rotation hours minutes seconds) }

/-- Model of `AnalogClock::draw` (src/main.rs): the face draw binds program,
texture and mesh without mutating anything, then the three hands draw in
order through the shared shader program. -/
def AnalogClock.draw (tbl : String → Int) (c : AnalogClock) :
    Except String (AnalogClock × List String) :=
  match ClockHand.draw tbl c.second_hand c.hand_shader with
  | Except.error e => Except.error e
  | Except.ok (sp1, d1) =>
    match ClockHand.draw tbl c.minute_hand sp1 with
    | Except.error e => Except.error e
    | Except.ok (sp2, d2) =>
      match ClockHand.draw tbl c.hour_hand sp2 with
      | Except.error e => Except.error e
      | Except.ok (sp3, d3) =>
        Except.ok ({ c with hand_shader := sp3 }, d1 ++ d2 ++ d3)

/-- Per-tick instance data of the tick-instancing `ClockFace` variant. -/
structure TickInstance where
  angle : ℝ
  scale_factor : ℝ
  offset_y : ℝ
  offset_z : ℝ

/-- Modelled from the spec: the tick-mark `ClockFace` variant (tick mesh,
tick shader program and its 60-element per-instance transform array) is not
present in the source files under src, so its scale tiering is taken from
spec section 4.5: factor 3 when the index is a multiple of 15, else 1.5
when a multiple of 5, else 1. -/
def tickScaleFactor (i : ℕ) : ℝ :=
  if i % 15 = 0 then 3 else if i % 5 = 0 then 1.5 else 1

/-- Modelled from the spec: per-index tick instance of spec section 4.5 —
rotation angle i * (2 * pi / 60), the tiered scale factor, vertical offset
1 - tickHeight * 0.5 * scaleFactor, and fixed z offset -0.05. -/
noncomputable def tickInstance (tickHeight : ℝ) (i : ℕ) : TickInstance :=
  { angle := i * (2 * Real.pi / 60),
    scale_factor := tickScaleFactor i,
    offset_y := 1 - tickHeight * 0.5 * tickScaleFactor i,
    offset_z := -0.05 }

/-- Modelled from the spec: the fixed array of 60 per-tick instances
computed once at `ClockFace` construction and never recomputed. -/
noncomputable def clockFaceTickTransforms (tickHeight : ℝ) : List TickInstance :=
  (List.range 60).map (tickInstance tickHeight)

theorem mat4OfAffine_mul (a b : Affine3) :
    mat4OfAffine (a.mul b) = (mat4OfAffine a).mul (mat4OfAffine b) := by
  ext <;>
    simp [Affine3.mul, Mat3.mul, Mat3.mulVec, Vec3R.add, mat4OfAffine, Mat4.mul]

theorem mat4OfAffine_fromRotationZ (θ : ℝ) :
    mat4OfAffine (Affine3.fromRotationZ θ) = rotateZ4 θ := by
  ext <;> simp [Affine3.fromRotationZ, mat4OfAffine, rotateZ4]

theorem mat4OfAffine_fromTranslation (t : Vec3R) :
    mat4OfAffine (Affine3.fromTranslation t) = translate4 t.x t.y t.z := by
  ext <;> simp [Affine3.fromTranslation, mat4OfAffine, translate4, Mat3.identity]

theorem mat4OfAffine_fromScale (s : Vec3R) :
    mat4OfAffine (Affine3.fromScale s) = scale4 s.x s.y s.z := by
  ext <;> simp [Affine3.fromScale, mat4OfAffine, scale4]

/-- Claim C1: for every input angle in degrees, `ClockHand::set_rotation`
stores rotation = -degrees * pi / 180 radians, sets the target point to
(cos(rotation) * length, sin(rotation) * length) leaving z unchanged, sets
origin to the midpoint of mount point and target point, and recomputes the
transform as RotateZ(rotation) * Translate(0, length, origin.z) *
Scale(0.03, length, 1) in exactly that composition order. -/
theorem C1_set_rotation_spec (h : ClockHand) (θ : ℝ) :
    (h.set_rotation θ).rotation = -(θ * (Real.pi / 180)) ∧
    (h.set_rotation θ).target_point.x
      = Real.cos ((h.set_rotation θ).rotation) * h.length ∧
    (h.set_rotation θ).target_point.y
      = Real.sin ((h.set_rotation θ).rotation) * h.length ∧
    (h.set_rotation θ).target_point.z = h.target_point.z ∧
    (h.set_rotation θ).origin
      = (h.mount_point.add ((h.set_rotation θ).target_point)).scale 0.5 ∧
    (h.set_rotation θ).transform
      = ((rotateZ4 ((h.set_rotation θ).rotation)).mul
          (translate4 0 h.length ((h.set_rotation θ).origin.z))).mul
          (scale4 0.03 h.length 1) := by
  simp only [ClockHand.set_rotation, ClockHand.update_transform]
  refine ⟨trivial, trivial, trivial, trivial, trivial, ?_⟩
  rw [mat4OfAffine_mul, mat4OfAffine_mul, mat4OfAffine_fromRotationZ,
    mat4OfAffine_fromTranslation, mat4OfAffine_fromScale]

theorem set_rotation_congr (h : ClockHand) {a b : ℝ} (hab : a = b) :
    h.set_rotation a = h.set_rotation b := by
  rw [hab]

/-- Claim C2: `AnalogClock::update` maps local time (hours mod 12, minutes,
seconds, milliseconds) to hand angles seconds_deg = s*6 + ms*0.006,
minutes_deg = m*6 + s*0.1 + ms*0.0001, hours_deg = h*30 + m*0.5 + s*0.008333
and pushes each into the corresponding hand via `set_rotation`; in
particular 03:00:00.000 gives 90/0/0, 00:30:00.000 gives hours 15 and
minutes 180, and 00:00:30.500 gives seconds 183. -/
theorem C2_update_time_to_angle (c : AnalogClock) (hour minute second nanosecond : ℕ) :
    (c.update hour minute second nanosecond).second_hand
      = c.second_hand.set_rotation
          ((second : ℝ) * 6 + ((nanosecond : ℝ) / 1000000) * 0.006) ∧
    (c.update hour minute second nanosecond).minute_hand
      = c.minute_hand.set_rotation
          ((minute : ℝ) * 6 + (second : ℝ) * 0.1 + ((nanosecond : ℝ) / 1000000) * 0.0001) ∧
    (c.update hour minute second nanosecond).hour_hand
      = c.hour_hand.set_rotation
          (((hour % 12 : ℕ) : ℝ) * 30 + (minute : ℝ) * 0.5 + (second : ℝ) * 0.008333) ∧
    (c.update 3 0 0 0).hour_hand = c.hour_hand.set_rotation 90 ∧
    (c.update 3 0 0 0).minute_hand = c.minute_hand.set_rotation 0 ∧
    (c.update 3 0 0 0).second_hand = c.second_hand.set_rotation 0 ∧
    (c.update 0 30 0 0).hour_hand = c.hour_hand.set_rotation 15 ∧
    (c.update 0 30 0 0).minute_hand = c.minute_hand.set_rotation 180 ∧
    (c.update 0 0 30 500000000).second_hand = c.second_hand.set_rotation 183 := by
  dsimp only [AnalogClock.update, AnalogClock.get_seconds_rotation,
    AnalogClock.get_minutes_rotation, AnalogClock.get_hours_rotation]
  exact ⟨set_rotation_congr _ (by norm_num), set_rotation_congr _ (by norm_num),
    set_rotation_congr _ (by norm_num), set_rotation_congr _ (by norm_num),
    set_rotation_congr _ (by norm_num), set_rotation_congr _ (by norm_num),
    set_rotation_congr _ (by norm_num), set_rotation_congr _ (by norm_num),
    set_rotation_congr _ (by norm_num)⟩

theorem hand_new_target_origin (length depth : ℝ) (color : Vec3R) :
    (ClockHand.new length depth color).target_point = ⟨0, 1, depth⟩ ∧
    (ClockHand.new length depth color).origin = ⟨0, 0.5, depth⟩ := by
  constructor
  · rfl
  · dsimp only [ClockHand.new, ClockHand.update_transform, Vec3R.add, Vec3R.scale]
    norm_num
    ring

theorem hand_set_rotation_zero_target (h : ClockHand) :
    (h.set_rotation 0).target_point = ⟨h.length, 0, h.target_point.z⟩ := by
  dsimp only [ClockHand.set_rotation, ClockHand.update_transform]
  norm_num

theorem hand_set_rotation_ninety_target (h : ClockHand) :
    (h.set_rotation 90).target_point = ⟨0, -h.length, h.target_point.z⟩ := by
  have h90 : -((90 : ℝ) * (Real.pi / 180)) = -(Real.pi / 2) := by ring
  dsimp only [ClockHand.set_rotation, ClockHand.update_transform]
  rw [h90]
  simp [Real.cos_pi_div_two, Real.sin_pi_div_two]

/-- Claim C3 counterexample: for the hand of length 2 at depth 0,
`set_rotation(0)` puts the target point at (2, 0, 0), not at
(0, 2, 0) = (0, length, depth) as claimed. -/
theorem C3_counterexample :
    ((ClockHand.new 2 0 ⟨1, 0, 0⟩).set_rotation 0).target_point = ⟨2, 0, 0⟩ ∧
    ((ClockHand.new 2 0 ⟨1, 0, 0⟩).set_rotation 0).target_point ≠ ⟨0, 2, 0⟩ := by
  have h1 : ((ClockHand.new 2 0 ⟨1, 0, 0⟩).set_rotation 0).target_point = ⟨2, 0, 0⟩ := by
    rw [hand_set_rotation_zero_target]
    rfl
  refine ⟨h1, ?_⟩
  rw [h1]
  intro hcontra
  have := congrArg Vec3R.x hcontra
  norm_num at this

/-- Claim C3 (amended): after `set_rotation(0)` the target point equals
(length, 0, depth) exactly, and after `set_rotation(90)` it equals
(0, -length, depth) exactly (the code drives the target point by the raw
cosine/sine of the negated angle, with no 90-degree phase shift to the
12-o-clock convention). -/
theorem C3_amended_target_points (length depth : ℝ) (color : Vec3R) :
    ((ClockHand.new length depth color).set_rotation 0).target_point
      = ⟨length, 0, depth⟩ ∧
    ((ClockHand.new length depth color).set_rotation 90).target_point
      = ⟨0, -length, depth⟩ := by
  constructor
  · rw [hand_set_rotation_zero_target]
    rfl
  · rw [hand_set_rotation_ninety_target]
    rfl

/-- Claim C5 counterexample: calling `set_rotation(0)` then
`set_rotation(360)` does not reproduce the state of `set_rotation(0)`
alone — the stored rotation field ends up exactly 2 * pi lower (not a
rounding difference), so the full `ClockHand` states differ. -/
theorem C5_counterexample :
    (((ClockHand.new 1 0 ⟨1, 0, 0⟩).set_rotation 0).set_rotation 360).rotation
      = ((ClockHand.new 1 0 ⟨1, 0, 0⟩).set_rotation 0).rotation - 2 * Real.pi ∧
    (((ClockHand.new 1 0 ⟨1, 0, 0⟩).set_rotation 0).set_rotation 360).rotation
      ≠ ((ClockHand.new 1 0 ⟨1, 0, 0⟩).set_rotation 0).rotation := by
  have hval : (((ClockHand.new 1 0 ⟨1, 0, 0⟩).set_rotation 0).set_rotation 360).rotation
      = ((ClockHand.new 1 0 ⟨1, 0, 0⟩).set_rotation 0).rotation - 2 * Real.pi := by
    dsimp only [ClockHand.set_rotation, ClockHand.update_transform]
    ring
  refine ⟨hval, ?_⟩
  rw [hval]
  intro hcontra
  have hpi : Real.pi = 0 := by linarith
  exact Real.pi_ne_zero hpi

/-- Claim C5 (amended): `set_rotation(θ)` then `set_rotation(θ + 360)`
reproduces the target point, the origin and the transform of
`set_rotation(θ)` alone exactly (in the real-number model of f32), and the
geometry-independent fields are unchanged; only the stored rotation field
differs (by 2 * pi). -/
theorem C5_amended_periodicity (h : ClockHand) (θ : ℝ) :
    ((h.set_rotation θ).set_rotation (θ + 360)).target_point
      = (h.set_rotation θ).target_point ∧
    ((h.set_rotation θ).set_rotation (θ + 360)).origin
      = (h.set_rotation θ).origin ∧
    ((h.set_rotation θ).set_rotation (θ + 360)).transform
      = (h.set_rotation θ).transform ∧
    ((h.set_rotation θ).set_rotation (θ + 360)).length = (h.set_rotation θ).length ∧
    ((h.set_rotation θ).set_rotation (θ + 360)).mount_point
      = (h.set_rotation θ).mount_point ∧
    ((h.set_rotation θ).set_rotation (θ + 360)).color = (h.set_rotation θ).color := by
  have e1 : -((θ + 360) * (Real.pi / 180)) = -(θ * (Real.pi / 180)) - 2 * Real.pi := by
    ring
  have hcos : Real.cos (-((θ + 360) * (Real.pi / 180)))
      = Real.cos (-(θ * (Real.pi / 180))) := by
    rw [e1, Real.cos_sub_two_pi]
  have hsin : Real.sin (-((θ + 360) * (Real.pi / 180)))
      = Real.sin (-(θ * (Real.pi / 180))) := by
    rw [e1, Real.sin_sub_two_pi]
  have hfr : Affine3.fromRotationZ (-((θ + 360) * (Real.pi / 180)))
      = Affine3.fromRotationZ (-(θ * (Real.pi / 180))) := by
    dsimp only [Affine3.fromRotationZ]
    rw [hcos, hsin]
  dsimp only [ClockHand.set_rotation, ClockHand.update_transform]
  rw [hcos, hsin, hfr]
  exact ⟨rfl, rfl, rfl, rfl, rfl, rfl⟩

theorem hand_new_set_rotation_zero_origin (length depth : ℝ) (color : Vec3R) :
    ((ClockHand.new length depth color).set_rotation 0).origin
      = ⟨length * 0.5, 0, depth⟩ := by
  dsimp only [ClockHand.new, ClockHand.set_rotation, ClockHand.update_transform,
    Vec3R.add, Vec3R.scale]
  norm_num
  ring

/-- Claim C10: a freshly constructed `ClockHand` has target point
(0, 1, depth) and origin (0, 0.5, depth) independent of length; whenever
length is not 1 these differ from the values after `set_rotation(0)`; the
transform after construction nevertheless equals the transform after
`set_rotation(0)`. -/
theorem C10_constructor_state (length depth : ℝ) (color : Vec3R) (_hlen : length ≠ 1) :
    (ClockHand.new length depth color).target_point = ⟨0, 1, depth⟩ ∧
    (ClockHand.new length depth color).origin = ⟨0, 0.5, depth⟩ ∧
    (ClockHand.new length depth color).target_point
      ≠ ((ClockHand.new length depth color).set_rotation 0).target_point ∧
    (ClockHand.new length depth color).origin
      ≠ ((ClockHand.new length depth color).set_rotation 0).origin ∧
    (ClockHand.new length depth color).transform
      = ((ClockHand.new length depth color).set_rotation 0).transform := by
  obtain ⟨ht, ho⟩ := hand_new_target_origin length depth color
  refine ⟨ht, ho, ?_, ?_, ?_⟩
  · rw [ht, hand_set_rotation_zero_target]
    intro hcontra
    have hy := congrArg Vec3R.y hcontra
    norm_num at hy
  · rw [ho, hand_new_set_rotation_zero_origin]
    intro hcontra
    have hy := congrArg Vec3R.y hcontra
    norm_num at hy
  · have e_r : -((0 : ℝ) * (Real.pi / 180)) = 0 := by ring
    dsimp only [ClockHand.new, ClockHand.set_rotation, ClockHand.update_transform,
      Vec3R.add, Vec3R.scale]
    rw [e_r]

/-- Claim C10 witness: the constructor state facts instantiated at
length 2, depth 0. -/
theorem C10_witness :
    (2 : ℝ) ≠ 1 ∧
    ((ClockHand.new 2 0 ⟨0, 0, 1⟩).target_point = ⟨0, 1, 0⟩ ∧
     (ClockHand.new 2 0 ⟨0, 0, 1⟩).origin = ⟨0, 0.5, 0⟩ ∧
     (ClockHand.new 2 0 ⟨0, 0, 1⟩).target_point
       ≠ ((ClockHand.new 2 0 ⟨0, 0, 1⟩).set_rotation 0).target_point ∧
     (ClockHand.new 2 0 ⟨0, 0, 1⟩).origin
       ≠ ((ClockHand.new 2 0 ⟨0, 0, 1⟩).set_rotation 0).origin ∧
     (ClockHand.new 2 0 ⟨0, 0, 1⟩).transform
       = ((ClockHand.new 2 0 ⟨0, 0, 1⟩).set_rotation 0).transform) :=
  ⟨by norm_num, C10_constructor_state 2 0 ⟨0, 0, 1⟩ (by norm_num)⟩

/-- Claim C6: `Mesh::make_rect` builds a 4-vertex, 6-index quad centered at
the origin in the XY plane with all normals (0, 0, 1), vertex order
top-right, bottom-right, bottom-left, top-left, index list
(0,1,3),(1,2,3), UV defaults (0,0) and (1,1) for the absent optional
corners, and the other two UV corners derived from the given pair. -/
theorem C6_make_rect_spec (width height : ℝ) (uv_tl uv_br : Option Vec2R) :
    (Mesh.make_rect width height uv_tl uv_br).vertices.length = 4 ∧
    (Mesh.make_rect width height uv_tl uv_br).indices = [0, 1, 3, 1, 2, 3] ∧
    (Mesh.make_rect width height uv_tl uv_br).vertices.map VertexR.position
      = [⟨width * 0.5, height * 0.5, 0⟩, ⟨width * 0.5, -(height * 0.5), 0⟩,
         ⟨-(width * 0.5), -(height * 0.5), 0⟩, ⟨-(width * 0.5), height * 0.5, 0⟩] ∧
    (Mesh.make_rect width height uv_tl uv_br).vertices.map VertexR.normal
      = [⟨0, 0, 1⟩, ⟨0, 0, 1⟩, ⟨0, 0, 1⟩, ⟨0, 0, 1⟩] ∧
    (Mesh.make_rect width height uv_tl uv_br).vertices.map VertexR.texture_coordinate
      = [⟨(uv_br.getD ⟨1, 1⟩).x, (uv_tl.getD ⟨0, 0⟩).y⟩, uv_br.getD ⟨1, 1⟩,
         ⟨(uv_tl.getD ⟨0, 0⟩).x, (uv_br.getD ⟨1, 1⟩).y⟩, uv_tl.getD ⟨0, 0⟩] ∧
    Mesh.make_rect width height none none
      = Mesh.make_rect width height (some ⟨0, 0⟩) (some ⟨1, 1⟩) := by
  exact ⟨rfl, rfl, rfl, rfl, rfl, rfl⟩

/-- Claim C7: every mesh the program constructs has all draw indices
strictly below its vertex count: every rectangle from `Mesh::make_rect`,
the `ClockFace` constant mesh, and the shared `ClockHand` constant mesh. -/
theorem C7_mesh_indices_valid :
    (∀ (width height : ℝ) (uv_tl uv_br : Option Vec2R),
      (Mesh.make_rect width height uv_tl uv_br).indicesValid) ∧
    clockFaceMesh.indicesValid ∧ clockHandMesh.indicesValid := by
  refine ⟨?_, ?_, ?_⟩
  · intro width height uv_tl uv_br i hi
    simp only [Mesh.make_rect, Mesh.new, List.mem_cons, List.not_mem_nil, or_false,
      List.length_cons, List.length_nil] at hi ⊢
    omega
  · intro i hi
    simp only [clockFaceMesh, Mesh.new, ClockFace.INDICES, ClockFace.VERTICES,
      List.mem_cons, List.not_mem_nil, or_false, List.length_cons, List.length_nil] at hi ⊢
    omega
  · intro i hi
    simp only [clockHandMesh, Mesh.new, ClockHand.INDICES, ClockHand.VERTICES,
      List.mem_cons, List.not_mem_nil, or_false, List.length_cons, List.length_nil] at hi ⊢
    omega

/-- Claim C4: the tick array holds exactly 60 precomputed per-tick
instances, fixed at construction, and for each index i below 60 the tick
rotation angle is i * (2 * pi / 60) radians with scale factor 3.0 when
i is a multiple of 15, 1.5 when a multiple of 5 only, and 1.0 otherwise
(modelled from spec section 4.5, as the tick variant is absent from src). -/
theorem C4_tick_layout (tickHeight : ℝ) (i : ℕ) (hi : i < 60) :
    (clockFaceTickTransforms tickHeight).length = 60 ∧
    (clockFaceTickTransforms tickHeight)[i]? = some (tickInstance tickHeight i) ∧
    (tickInstance tickHeight i).angle = i * (2 * Real.pi / 60) ∧
    (i % 15 = 0 → (tickInstance tickHeight i).scale_factor = 3) ∧
    (i % 15 ≠ 0 → i % 5 = 0 → (tickInstance tickHeight i).scale_factor = 1.5) ∧
    (i % 5 ≠ 0 → (tickInstance tickHeight i).scale_factor = 1) := by
  refine ⟨by simp [clockFaceTickTransforms], ?_, rfl, ?_, ?_, ?_⟩
  · simp [clockFaceTickTransforms, List.getElem?_map, List.getElem?_range, hi]
  · intro h15
    simp [tickInstance, tickScaleFactor, h15]
  · intro h15 h5
    simp [tickInstance, tickScaleFactor, h15, h5]
  · intro h5
    have h15 : i % 15 ≠ 0 := by omega
    simp [tickInstance, tickScaleFactor, h15, h5]

/-- Claim C4 witness: the tick layout instantiated at index 5 (an hour
tick) with tick height 1. -/
theorem C4_witness :
    5 < 60 ∧
    ((clockFaceTickTransforms 1).length = 60 ∧
     (clockFaceTickTransforms 1)[5]? = some (tickInstance 1 5) ∧
     (tickInstance 1 5).angle = 5 * (2 * Real.pi / 60) ∧
     (5 % 15 = 0 → (tickInstance 1 5).scale_factor = 3) ∧
     (5 % 15 ≠ 0 → 5 % 5 = 0 → (tickInstance 1 5).scale_factor = 1.5) ∧
     (5 % 5 ≠ 0 → (tickInstance 1 5).scale_factor = 1)) :=
  ⟨by norm_num, C4_tick_layout 1 5 (by norm_num)⟩

theorem getUniformLocation_absent (tbl : String → Int)
    (p : Rendering.ShaderProgram) (uniform : String)
    (hnul : hasNul uniform = false) (habs : tbl uniform < 0)
    (hcache : p.cache.lookup uniform = none) :
    Rendering.ShaderProgram.getUniformLocation tbl p uniform = Except.ok (none, p) := by
  unfold Rendering.ShaderProgram.getUniformLocation
  simp [hcache, hnul, habs]

/-- Claim C8 counterexample: the uniform name consisting of a single NUL
byte is absent from every linked program (its looked-up location is
negative), yet `set_mat4` on it panics inside
`CString::new(name).expect(..)` instead of being a non-failing no-op. -/
theorem C8_counterexample :
    ((fun (_ : String) => (-1 : Int)) "\x00" < 0) ∧
    Rendering.ShaderProgram.setMat4 (fun _ => (-1 : Int)) ⟨"clockHand", []⟩ "\x00"
        Mat4.identity
      = Except.error "Should be able to turn uniform name into a CString" := by
  exact ⟨by norm_num, rfl⟩

/-- Claim C8 (amended): for every uniform name without interior NUL bytes
that is absent from the linked program (and hence not in the cache), each
setter — `set_mat4`, `set_mat4_array`, `set_vec3`, `set_vec2` — leaves the
program state unchanged, issues no GL upload call, emits exactly one
diagnostic naming the uniform and the owning program, does not fail, and
inserts no cache entry. -/
theorem C8_amended_missing_uniform_setters (tbl : String → Int)
    (p : Rendering.ShaderProgram) (uniform : String)
    (hnul : hasNul uniform = false) (habs : tbl uniform < 0)
    (hcache : p.cache.lookup uniform = none)
    (m : Mat4) (ms : List Mat4) (v3 : Vec3R) (v2 : Vec2R) :
    Rendering.ShaderProgram.setMat4 tbl p uniform m
      = Except.ok (p, [], [Rendering.mat4Diag uniform p.name]) ∧
    Rendering.ShaderProgram.setMat4Array tbl p uniform ms
      = Except.ok (p, [], [Rendering.mat4ArrayDiag uniform p.name]) ∧
    Rendering.ShaderProgram.setVec3 tbl p uniform v3
      = Except.ok (p, [], [Rendering.vec3Diag uniform p.name]) ∧
    Rendering.ShaderProgram.setVec2 tbl p uniform v2
      = Except.ok (p, [], [Rendering.vec2Diag uniform p.name]) := by
  have hloc := getUniformLocation_absent tbl p uniform hnul habs hcache
  refine ⟨?_, ?_, ?_, ?_⟩ <;>
    simp [Rendering.ShaderProgram.setMat4, Rendering.ShaderProgram.setMat4Array,
      Rendering.ShaderProgram.setVec3, Rendering.ShaderProgram.setVec2, hloc]

/-- Claim C8 witness: the amended setter facts instantiated at the NUL-free
uniform name "tick_scale", a program named "clockFace" with empty cache,
and a table reporting every uniform absent. -/
theorem C8_witness :
    hasNul "tick_scale" = false ∧
    ((fun (_ : String) => (-1 : Int)) "tick_scale" < 0) ∧
    (([] : List (String × Int)).lookup "tick_scale" = none) ∧
    (Rendering.ShaderProgram.setMat4 (fun _ => (-1 : Int)) ⟨"clockFace", []⟩ "tick_scale"
        Mat4.identity
      = Except.ok (⟨"clockFace", []⟩, [], [Rendering.mat4Diag "tick_scale" "clockFace"]) ∧
    Rendering.ShaderProgram.setMat4Array (fun _ => (-1 : Int)) ⟨"clockFace", []⟩ "tick_scale" []
      = Except.ok (⟨"clockFace", []⟩, [], [Rendering.mat4ArrayDiag "tick_scale" "clockFace"]) ∧
    Rendering.ShaderProgram.setVec3 (fun _ => (-1 : Int)) ⟨"clockFace", []⟩ "tick_scale" ⟨0, 0, 0⟩
      = Except.ok (⟨"clockFace", []⟩, [], [Rendering.vec3Diag "tick_scale" "clockFace"]) ∧
    Rendering.ShaderProgram.setVec2 (fun _ => (-1 : Int)) ⟨"clockFace", []⟩ "tick_scale" ⟨0, 0⟩
      = Except.ok (⟨"clockFace", []⟩, [], [Rendering.vec2Diag "tick_scale" "clockFace"])) :=
  ⟨by decide, by decide, by decide,
    C8_amended_missing_uniform_setters (fun _ => (-1 : Int)) ⟨"clockFace", []⟩ "tick_scale"
      (by decide) (by decide) (by decide) Mat4.identity [] ⟨0, 0, 0⟩ ⟨0, 0⟩⟩

theorem mgul_spec (tbl : String → Int) (sp : MShaderProgram) (uniform : String)
    (hnul : hasNul uniform = false) :
    ∃ r sp2, MShaderProgram.getUniformLocation tbl sp uniform = Except.ok (r, sp2) ∧
      (∀ e ∈ sp.cache, e ∈ sp2.cache) ∧
      (∀ e ∈ sp2.cache, e ∈ sp.cache ∨ (e.2 = tbl e.1 ∧ 0 ≤ e.2)) ∧
      ((sp2.cache.lookup uniform).isSome ∨ tbl uniform < 0) ∧
      (∀ n, (sp.cache.lookup n).isSome → (sp2.cache.lookup n).isSome) ∧
      (((sp.cache.lookup uniform).isSome ∨ tbl uniform < 0) → sp2 = sp) := by
  cases hl : sp.cache.lookup uniform with
  | some loc =>
    refine ⟨some loc, sp, ?_, fun e he => he, fun e he => Or.inl he,
      Or.inl (by rw [hl]; rfl), fun n hn => hn, fun _ => rfl⟩
    unfold MShaderProgram.getUniformLocation
    rw [hl]
  | none =>
    by_cases hlt : tbl uniform < 0
    · refine ⟨none, sp, ?_, fun e he => he, fun e he => Or.inl he,
        Or.inr hlt, fun n hn => hn, fun _ => rfl⟩
      unfold MShaderProgram.getUniformLocation
      rw [hl]
      simp [hnul, hlt]
    · refine ⟨some (tbl uniform), ⟨(uniform, tbl uniform) :: sp.cache⟩, ?_, ?_, ?_, ?_, ?_, ?_⟩
      · unfold MShaderProgram.getUniformLocation
        rw [hl]
        simp [hnul, hlt]
      · exact fun e he => List.mem_cons_of_mem _ he
      · intro e he
        rcases List.mem_cons.mp he with hh | hh
        · rw [hh]
          exact Or.inr ⟨rfl, by omega⟩
        · exact Or.inl hh
      · left
        simp only [List.lookup_cons, beq_self_eq_true, Option.isSome_some]
      · intro n hn
        cases hb : (n == uniform) with
        | true => simp only [List.lookup_cons, hb, Option.isSome_some]
        | false =>
          simp only [List.lookup_cons, hb]
          exact hn
      · intro hset
        rcases hset with hh | hh
        · simp at hh
        · exact absurd hh hlt

theorem msetMat4_spec (tbl : String → Int) (sp : MShaderProgram) (uniform : String)
    (hnul : hasNul uniform = false) (value : Mat4) :
    ∃ sp2 ds, MShaderProgram.setMat4 tbl sp uniform value = Except.ok (sp2, ds) ∧
      (∀ e ∈ sp.cache, e ∈ sp2.cache) ∧
      (∀ e ∈ sp2.cache, e ∈ sp.cache ∨ (e.2 = tbl e.1 ∧ 0 ≤ e.2)) ∧
      ((sp2.cache.lookup uniform).isSome ∨ tbl uniform < 0) ∧
      (∀ n, (sp.cache.lookup n).isSome → (sp2.cache.lookup n).isSome) ∧
      (((sp.cache.lookup uniform).isSome ∨ tbl uniform < 0) → sp2 = sp) := by
  obtain ⟨r, sp2, heq, hmono, hjust, hset, hpres, hunch⟩ := mgul_spec tbl sp uniform hnul
  cases r with
  | some loc =>
    exact ⟨sp2, [], by unfold MShaderProgram.setMat4; rw [heq],
      hmono, hjust, hset, hpres, hunch⟩
  | none =>
    exact ⟨sp2, [mat4DiagM uniform], by unfold MShaderProgram.setMat4; rw [heq],
      hmono, hjust, hset, hpres, hunch⟩

theorem msetVec3_spec (tbl : String → Int) (sp : MShaderProgram) (uniform : String)
    (hnul : hasNul uniform = false) (value : Vec3R) :
    ∃ sp2 ds, MShaderProgram.setVec3 tbl sp uniform value = Except.ok (sp2, ds) ∧
      (∀ e ∈ sp.cache, e ∈ sp2.cache) ∧
      (∀ e ∈ sp2.cache, e ∈ sp.cache ∨ (e.2 = tbl e.1 ∧ 0 ≤ e.2)) ∧
      ((sp2.cache.lookup uniform).isSome ∨ tbl uniform < 0) ∧
      (∀ n, (sp.cache.lookup n).isSome → (sp2.cache.lookup n).isSome) ∧
      (((sp.cache.lookup uniform).isSome ∨ tbl uniform < 0) → sp2 = sp) := by
  obtain ⟨r, sp2, heq, hmono, hjust, hset, hpres, hunch⟩ := mgul_spec tbl sp uniform hnul
  cases r with
  | some loc =>
    exact ⟨sp2, [], by unfold MShaderProgram.setVec3; rw [heq],
      hmono, hjust, hset, hpres, hunch⟩
  | none =>
    exact ⟨sp2, [vec3DiagM uniform], by unfold MShaderProgram.setVec3; rw [heq],
      hmono, hjust, hset, hpres, hunch⟩

theorem hand_draw_spec (tbl : String → Int) (h : ClockHand) (sp : MShaderProgram) :
    ∃ sp2 ds, ClockHand.draw tbl h sp = Except.ok (sp2, ds) ∧
      (∀ e ∈ sp.cache, e ∈ sp2.cache) ∧
      (∀ e ∈ sp2.cache, e ∈ sp.cache ∨ (e.2 = tbl e.1 ∧ 0 ≤ e.2)) ∧
      ((sp2.cache.lookup "transformation").isSome ∨ tbl "transformation" < 0) ∧
      ((sp2.cache.lookup "color").isSome ∨ tbl "color" < 0) ∧
      (∀ n, (sp.cache.lookup n).isSome → (sp2.cache.lookup n).isSome) ∧
      (((sp.cache.lookup "transformation").isSome ∨ tbl "transformation" < 0) →
        ((sp.cache.lookup "color").isSome ∨ tbl "color" < 0) → sp2 = sp) := by
  obtain ⟨spa, d1, heq1, hmono1, hjust1, hsetT, hpres1, hunch1⟩ :=
    msetMat4_spec tbl sp "transformation" (by decide) h.transform
  obtain ⟨spb, d2, heq2, hmono2, hjust2, hsetC, hpres2, hunch2⟩ :=
    msetVec3_spec tbl spa "color" (by decide) h.color
  refine ⟨spb, d1 ++ d2, ?_, fun e he => hmono2 e (hmono1 e he), ?_, ?_, hsetC,
    fun n hn => hpres2 n (hpres1 n hn), ?_⟩
  · simp only [ClockHand.draw, heq1, heq2]
  · intro e he
    rcases hjust2 e he with hh | hh
    · rcases hjust1 e hh with hh2 | hh2
      · exact Or.inl hh2
      · exact Or.inr hh2
    · exact Or.inr hh
  · rcases hsetT with hT | hT
    · exact Or.inl (hpres2 _ hT)
    · exact Or.inr hT
  · intro hT hC
    have e1 : spa = sp := hunch1 hT
    have e2 : spb = spa := hunch2 (by rw [e1]; exact hC)
    rw [e2, e1]

/-- Claim C9 counterexample: drawing the freshly constructed clock against
a program whose uniforms are all at location 0 populates the shared hand
shader's uniform-location cache (with "transformation" and "color"), so
`draw` does mutate clock state on the first frame. -/
theorem C9_counterexample :
    AnalogClock.new.hand_shader.cache = [] ∧
    (AnalogClock.draw (fun _ => (0 : Int)) AnalogClock.new).map
        (fun r => r.1.hand_shader.cache)
      = Except.ok [("color", 0), ("transformation", 0)] ∧
    ([("color", (0 : Int)), ("transformation", 0)] : List (String × Int)) ≠ [] := by
  exact ⟨rfl, rfl, by simp⟩

/-- Claim C9 (amended): `AnalogClock::draw` never fails and leaves the
face and all three hands (and every other field) unchanged; the only
mutation is lazy population of the shared hand shader program's
uniform-location cache, which can only gain entries for uniforms found at
non-negative locations, and a second draw from the resulting state changes
nothing. -/
theorem C9_amended_draw_state (tbl : String → Int) (c : AnalogClock) :
    ∃ sp2 ds,
      AnalogClock.draw tbl c = Except.ok ({ c with hand_shader := sp2 }, ds) ∧
      (∀ e ∈ c.hand_shader.cache, e ∈ sp2.cache) ∧
      (∀ e ∈ sp2.cache, e ∈ c.hand_shader.cache ∨ (e.2 = tbl e.1 ∧ 0 ≤ e.2)) ∧
      ∃ ds2, AnalogClock.draw tbl { c with hand_shader := sp2 }
          = Except.ok ({ c with hand_shader := sp2 }, ds2) := by
  obtain ⟨sp1, d1, h1, m1, j1, sT1, sC1, p1, u1⟩ :=
    hand_draw_spec tbl c.second_hand c.hand_shader
  obtain ⟨sp2, d2, h2, m2, j2, sT2, sC2, p2, u2⟩ := hand_draw_spec tbl c.minute_hand sp1
  obtain ⟨sp3, d3, h3, m3, j3, sT3, sC3, p3, u3⟩ := hand_draw_spec tbl c.hour_hand sp2
  have hdraw : AnalogClock.draw tbl c
      = Except.ok ({ c with hand_shader := sp3 }, d1 ++ d2 ++ d3) := by
    simp only [AnalogClock.draw, h1, h2, h3]
  refine ⟨sp3, d1 ++ d2 ++ d3, hdraw, fun e he => m3 e (m2 e (m1 e he)), ?_, ?_⟩
  · intro e he
    rcases j3 e he with hh | hh
    · rcases j2 e hh with hh2 | hh2
      · rcases j1 e hh2 with hh3 | hh3
        · exact Or.inl hh3
        · exact Or.inr hh3
      · exact Or.inr hh2
    · exact Or.inr hh
  · obtain ⟨spa, da, ha, ma, ja, sTa, sCa, pa, ua⟩ := hand_draw_spec tbl c.second_hand sp3
    have ea : spa = sp3 := ua sT3 sC3
    obtain ⟨spb, db, hb, mb, jb, sTb, sCb, pb, ub⟩ := hand_draw_spec tbl c.minute_hand spa
    have eb : spb = spa := ub (by rw [ea]; exact sT3) (by rw [ea]; exact sC3)
    obtain ⟨spc, dc, hc, mc, jc, sTc, sCc, pc, uc⟩ := hand_draw_spec tbl c.hour_hand spb
    have ec : spc = spb := uc (by rw [eb, ea]; exact sT3) (by rw [eb, ea]; exact sC3)
    refine ⟨da ++ db ++ dc, ?_⟩
    have hdraw2 : AnalogClock.draw tbl { c with hand_shader := sp3 }
        = Except.ok ({ c with hand_shader := spc }, da ++ db ++ dc) := by
      simp only [AnalogClock.draw, ha, hb, hc]
    rw [hdraw2, ec, eb, ea]

/-- Claim C7 witness: index validity instantiated at the clock-face mesh
and at a concrete 2 x 3 rectangle. -/
theorem C7_witness :
    clockFaceMesh.indicesValid ∧ (Mesh.make_rect 2 3 none none).indicesValid :=
  ⟨C7_mesh_indices_valid.2.1, C7_mesh_indices_valid.1 2 3 none none⟩
